import Mathlib

/- Shallow embedding of rtharindu/digital-identity-frontend:
   src/pages/Register.jsx (the validation rule table, per-field and full-form
   validation, the submit handler and the registration request) and
   src/utils/config.js (environment configuration accessors). -/

/-- JavaScript values that can appear in the registration form state:
strings from the text inputs, booleans from the checkbox, and undefined. -/
inductive JsValue where
  | str (s : String)
  | bool (b : Bool)
  | undef
  deriving DecidableEq

/-- JavaScript truthiness of a form value (the empty string, false and
undefined are falsy). -/
def jsTruthy : JsValue → Bool
  | JsValue.str s => s != ""
  | JsValue.bool b => b
  | JsValue.undef => false

/-- JavaScript ToString coercion, as RegExp.test applies it to a non-string
argument. -/
def jsToString : JsValue → String
  | JsValue.str s => s
  | JsValue.bool true => "true"
  | JsValue.bool false => "false"
  | JsValue.undef => "undefined"

/-- The .length property of a value: defined on strings, undefined
otherwise. -/
def jsLength : JsValue → Option Nat
  | JsValue.str s => some s.length
  | _ => none

/-- JavaScript comparison value.length < m: false when .length is
undefined. -/
def jsLtUndef : Option Nat → Nat → Bool
  | some n, m => decide (n < m)
  | none, _ => false

/-- Whitespace class of JavaScript regular expressions (the class written as
a backslash and an s). -/
def isJsSpace (c : Char) : Bool :=
  c.toNat == 0x20 || c.toNat == 0x09 || c.toNat == 0x0a || c.toNat == 0x0b ||
  c.toNat == 0x0c || c.toNat == 0x0d || c.toNat == 0xa0 || c.toNat == 0x1680 ||
  (decide (0x2000 ≤ c.toNat) && decide (c.toNat ≤ 0x200a)) ||
  c.toNat == 0x2028 || c.toNat == 0x2029 || c.toNat == 0x202f ||
  c.toNat == 0x205f || c.toNat == 0x3000 || c.toNat == 0xfeff

/-- Character class [A-Za-z] of the fullName pattern. -/
def isAsciiLetter (c : Char) : Bool :=
  (decide (65 ≤ c.toNat) && decide (c.toNat ≤ 90)) ||
  (decide (97 ≤ c.toNat) && decide (c.toNat ≤ 122))

/-- Digit class of JavaScript regular expressions: exactly [0-9]. -/
def isJsDigit (c : Char) : Bool :=
  decide (48 ≤ c.toNat) && decide (c.toNat ≤ 57)

/-- The fullName pattern of Register.jsx: anchored, one or more letters or
whitespace characters. -/
def matchFullName (s : String) : Bool :=
  !(s.toList.isEmpty) && s.toList.all (fun c => isAsciiLetter c || isJsSpace c)

/-- Character class of the email pattern parts: anything but an at sign or
whitespace. -/
def emailClassOk (c : Char) : Bool :=
  !(c == '@' || isJsSpace c)

/-- Domain part of the email pattern: one or more class characters, a dot,
one or more class characters. Because the class admits dots, this holds
exactly when every character is in the class and some dot is interior. -/
def matchEmailDomain (cs : List Char) : Bool :=
  cs.all emailClassOk && (cs.dropLast.drop 1).contains '.'

/-- The email pattern of Register.jsx: local part, at sign, domain part. The
local part cannot contain an at sign, so it is the maximal class prefix. -/
def matchEmail (s : String) : Bool :=
  let cs := s.toList
  let localPart := cs.takeWhile emailClassOk
  match cs.drop localPart.length with
  | '@' :: domainPart => !(localPart.isEmpty) && matchEmailDomain domainPart
  | _ => false

/-- The phone pattern of Register.jsx: anchored, exactly ten digits. -/
def matchPhone (s : String) : Bool :=
  (s.toList.length == 10) && s.toList.all isJsDigit

/-- Message table of one validation rule (entries absent from the source
object are undefined, embedded as none). -/
structure RuleMessages where
  required : Option String
  minLength : Option String
  pattern : Option String
  mismatch : Option String
  deriving DecidableEq

/-- One entry of the validationRules object of Register.jsx. The regular
expression is embedded as its matching function on strings. -/
structure Rule where
  required : Bool
  minLength : Option Nat
  maxLength : Option Nat
  pattern : Option (String → Bool)
  messages : RuleMessages

/-- validationRules.fullName of Register.jsx. -/
def fullNameRule : Rule :=
  { required := true, minLength := some 2, maxLength := some 50,
    pattern := some matchFullName,
    messages := { required := some "Full name is required",
                  minLength := some "Full name must be at least 2 characters",
                  pattern := some "Full name can contain only letters and spaces",
                  mismatch := none } }

/-- validationRules.email of Register.jsx. -/
def emailRule : Rule :=
  { required := true, minLength := none, maxLength := none,
    pattern := some matchEmail,
    messages := { required := some "Email is required",
                  minLength := none,
                  pattern := some "Invalid email address",
                  mismatch := none } }

/-- validationRules.phone of Register.jsx. -/
def phoneRule : Rule :=
  { required := true, minLength := none, maxLength := none,
    pattern := some matchPhone,
    messages := { required := some "Phone number is required",
                  minLength := none,
                  pattern := some "Phone number must be exactly 10 digits",
                  mismatch := none } }

/-- validationRules.password of Register.jsx. -/
def passwordRule : Rule :=
  { required := true, minLength := some 8, maxLength := none,
    pattern := none,
    messages := { required := some "Password is required",
                  minLength := some "Password must be at least 8 characters",
                  pattern := none,
                  mismatch := none } }

/-- validationRules.confirmPassword of Register.jsx. -/
def confirmPasswordRule : Rule :=
  { required := true, minLength := none, maxLength := none,
    pattern := none,
    messages := { required := some "Please confirm your password",
                  minLength := none,
                  pattern := none,
                  mismatch := some "Passwords do not match" } }

/-- validationRules.agreeToTerms of Register.jsx. -/
def agreeToTermsRule : Rule :=
  { required := true, minLength := none, maxLength := none,
    pattern := none,
    messages := { required := some "You must agree to the Terms & Conditions",
                  minLength := none,
                  pattern := none,
                  mismatch := none } }

/-- Property lookup validationRules[fieldName] of Register.jsx. -/
def validationRules (fieldName : String) : Option Rule :=
  if fieldName = "fullName" then some fullNameRule
  else if fieldName = "email" then some emailRule
  else if fieldName = "phone" then some phoneRule
  else if fieldName = "password" then some passwordRule
  else if fieldName = "confirmPassword" then some confirmPasswordRule
  else if fieldName = "agreeToTerms" then some agreeToTermsRule
  else none

/-- Form state of the Register component: five text inputs (strings) and the
terms checkbox (a boolean), as handleInputChange maintains them. -/
structure FormData where
  fullName : String
  email : String
  phone : String
  password : String
  confirmPassword : String
  agreeToTerms : Bool
  deriving DecidableEq

/-- Dynamic property access formData[fieldName]; unknown keys are
undefined. -/
def FormData.get (fd : FormData) (fieldName : String) : JsValue :=
  if fieldName = "fullName" then JsValue.str fd.fullName
  else if fieldName = "email" then JsValue.str fd.email
  else if fieldName = "phone" then JsValue.str fd.phone
  else if fieldName = "password" then JsValue.str fd.password
  else if fieldName = "confirmPassword" then JsValue.str fd.confirmPassword
  else if fieldName = "agreeToTerms" then JsValue.bool fd.agreeToTerms
  else JsValue.undef

/-- Condition rule.minLength && value.length < rule.minLength of
validateField (a configured 0 would be falsy in JavaScript and skip the
check). -/
def minLengthFails (rule : Rule) (value : JsValue) : Bool :=
  match rule.minLength with
  | some m => decide (m ≠ 0) && jsLtUndef (jsLength value) m
  | none => false

/-- Condition rule.pattern && !rule.pattern.test(value) of validateField. -/
def patternFails (rule : Rule) (value : JsValue) : Bool :=
  match rule.pattern with
  | some p => !(p (jsToString value))
  | none => false

/-- validateField of Register.jsx. The source returns the empty string for
no error and a message string for the first failing check; the empty string
is embedded as none. -/
def validateField (fieldName : String) (value : JsValue) (formData : FormData) :
    Option String :=
  match validationRules fieldName with
  | none => none
  | some rule =>
    if rule.required && !(jsTruthy value) then rule.messages.required
    else if minLengthFails rule value then rule.messages.minLength
    else if patternFails rule value then rule.messages.pattern
    else if fieldName == "confirmPassword" && value != JsValue.str formData.password then
      rule.messages.mismatch
    else none

/-- Modelled from the spec, section 4.2: the per-field validation algorithm
stated in the order the spec gives it (required check first, then a
configured minimum length, then a configured pattern, then the
confirm-password equality special case); fields outside the rule set
validate clean. Used to compare the spec wording against validateField. -/
def validateFieldSpec (fieldName : String) (value : JsValue) (formData : FormData) :
    Option String :=
  match validationRules fieldName with
  | none => none
  | some rule =>
    if rule.required && !(jsTruthy value) then rule.messages.required
    else if rule.minLength.isSome && jsLtUndef (jsLength value) (rule.minLength.getD 0) then
      rule.messages.minLength
    else if (match rule.pattern with
             | some p => !(p (jsToString value))
             | none => false) then
      rule.messages.pattern
    else if fieldName == "confirmPassword" && value != JsValue.str formData.password then
      rule.messages.mismatch
    else none

/-- Object.keys(validationRules) in insertion order. -/
def ruleKeys : List String :=
  ["fullName", "email", "phone", "password", "confirmPassword", "agreeToTerms"]

/-- validateForm of Register.jsx: the field error map, built key by key in
ruleKeys order, keeping exactly the truthy (here some) messages. -/
def validateForm (fd : FormData) : List (String × String) :=
  ruleKeys.filterMap fun f => (validateField f (fd.get f) fd).map fun e => (f, e)

/-- Outcome of the validation phase of handleSubmit. -/
inductive ValidationOutcome where
  | blocked (formErrors : List (String × String))
  | proceed
  deriving DecidableEq

/-- Validation phase of handleSubmit: setFormErrors(errors), then an early
return when Object.keys(errors).length > 0, otherwise the network call is
issued. -/
def handleSubmitValidation (fd : FormData) : ValidationOutcome :=
  let errors := validateForm fd
  if errors.length > 0 then ValidationOutcome.blocked errors
  else ValidationOutcome.proceed

/-- Outbound request built by submitRegistration of Register.jsx. -/
structure RegistrationRequest where
  method : String
  url : String
  contentTypeHeader : String
  bodyFields : List (String × String)
  deriving DecidableEq

/-- fetch call of submitRegistration: POST to apiBaseUrl followed by
/auth/user/register, JSON content type, body with exactly the fullName,
email, phone and password fields of the form state. -/
def buildRegistrationRequest (apiBaseUrl : String) (data : FormData) :
    RegistrationRequest :=
  { method := "POST",
    url := apiBaseUrl ++ "/auth/user/register",
    contentTypeHeader := "application/json",
    bodyFields := [("fullName", data.fullName), ("email", data.email),
                   ("phone", data.phone), ("password", data.password)] }

/-- Shape of the response body as res.json() sees it: a JSON object with an
optional message field, or text that fails to parse (res.json() rejects). -/
inductive JsonBody where
  | invalid
  | obj (message : Option String)
  deriving DecidableEq

/-- Outcome of the fetch promise: a response with a status and a body, or a
network-level rejection (no usable response). -/
inductive FetchOutcome where
  | response (status : Nat) (body : JsonBody)
  | netError
  deriving DecidableEq

/-- Response.ok of the Fetch standard: status in the range 200..299. -/
def statusOk (status : Nat) : Bool :=
  decide (200 ≤ status) && decide (status ≤ 299)

/-- JavaScript a || b for an optional string a (undefined and the empty
string are falsy). -/
def jsOrElse (v : Option String) (fallback : String) : String :=
  match v with
  | some s => if s = "" then fallback else s
  | none => fallback

/-- Result of submitRegistration as observed by handleSubmit: the resolved
object, or an exception propagating to the catch block of the caller. -/
inductive SubmitResult where
  | success
  | failure (message : String)
  | threw
  deriving DecidableEq

/-- submitRegistration of Register.jsx past the fetch. A non-ok response has
its body parsed (a parse failure throws) and reports errorData.message or
the fallback "Registration failed"; an ok response reports success. -/
def submitRegistration (outcome : FetchOutcome) : SubmitResult :=
  match outcome with
  | FetchOutcome.netError => SubmitResult.threw
  | FetchOutcome.response status body =>
    if !(statusOk status) then
      match body with
      | JsonBody.invalid => SubmitResult.threw
      | JsonBody.obj message =>
        SubmitResult.failure (jsOrElse message "Registration failed")
    else SubmitResult.success

/-- Observable resolution of one submit attempt: how many times navigate was
called, the banner error text, and whether the finally step cleared the
loading flag. -/
structure Resolution where
  navigations : Nat
  bannerError : String
  loadingCleared : Bool
  deriving DecidableEq

/-- try/catch/finally of handleSubmit around submitRegistration: success
navigates to /login once, a failure result surfaces its message, a thrown
error surfaces the generic retry message; the single finally step clears
loading on every path. -/
def handleSubmitResolve (result : SubmitResult) : Resolution :=
  match result with
  | SubmitResult.success =>
    { navigations := 1, bannerError := "", loadingCleared := true }
  | SubmitResult.failure m =>
    { navigations := 0, bannerError := m, loadingCleared := true }
  | SubmitResult.threw =>
    { navigations := 0, bannerError := "Registration failed. Please try again later.",
      loadingCleared := true }

/-- Environment as read by config.js: each variable present (some) or absent
(none). -/
structure Env where
  apiBaseUrl : Option String
  rpId : Option String
  rpName : Option String
  deriving DecidableEq

/-- JavaScript truthiness of process.env.X: an absent variable and an empty
one are both falsy. -/
def envTruthy : Option String → Bool
  | some s => s != ""
  | none => false

/-- The errors list accumulated by validateConfig of config.js. -/
def validateConfigErrors (e : Env) : List String :=
  if !(envTruthy e.apiBaseUrl) then ["REACT_APP_API_BASE_URL is required"] else []

/-- The warnings list accumulated by validateConfig of config.js. -/
def validateConfigWarnings (e : Env) : List String :=
  (if !(envTruthy e.rpId) then
    ["REACT_APP_RP_ID is not set - passkey functionality may not work"] else []) ++
  (if !(envTruthy e.rpName) then
    ["REACT_APP_RP_NAME is not set - using default"] else [])

/-- validateConfig of config.js: throws when the errors list is nonempty,
otherwise returns true. -/
def validateConfig (e : Env) : Except String Bool :=
  let errors := validateConfigErrors e
  if errors.length > 0 then
    Except.error ("Missing required environment variables: " ++
      String.intercalate ", " errors)
  else Except.ok true

/-- getApiBaseUrl of config.js: throws when the variable is falsy, otherwise
returns its value. -/
def getApiBaseUrl (e : Env) : Except String String :=
  if !(envTruthy e.apiBaseUrl) then
    Except.error "REACT_APP_API_BASE_URL environment variable is required"
  else Except.ok (e.apiBaseUrl.getD "")

/-- getRpId of config.js: the variable or the empty string. -/
def getRpId (e : Env) : String :=
  if envTruthy e.rpId then e.rpId.getD "" else ""

/-- getRpName of config.js: the variable or the default display name. -/
def getRpName (e : Env) : String :=
  if envTruthy e.rpName then e.rpName.getD "" else "Digital Identity Hub"

/-- initializeConfig of config.js: runs validateConfig and the logging
accessor calls inside a try (getApiBaseUrl may throw there too); any throw
is caught and turned into false. -/
def initializeConfig (e : Env) : Bool :=
  match validateConfig e with
  | Except.error _ => false
  | Except.ok _ =>
    match getApiBaseUrl e with
    | Except.error _ => false
    | Except.ok _ => true

/-- Initial form state of the Register component. -/
def initialFormData : FormData :=
  { fullName := "", email := "", phone := "", password := "",
    confirmPassword := "", agreeToTerms := false }

/-- Scenario A of the spec: the all-valid form. -/
def scenarioAForm : FormData :=
  { fullName := "Jane Doe", email := "jane@example.com", phone := "0771234567",
    password := "password123", confirmPassword := "password123",
    agreeToTerms := true }

/-- Concrete environment with the API base URL absent. -/
def envMissingApi : Env :=
  { apiBaseUrl := none, rpId := some "hub.example", rpName := some "Hub" }

/-- Concrete environment with only the relying-party id absent. -/
def envMissingRpId : Env :=
  { apiBaseUrl := some "http://api.example", rpId := none, rpName := some "Hub" }

lemma validationRules_none_of_not_mem (f : String) (h : f ∉ ruleKeys) :
    validationRules f = none := by
  simp only [ruleKeys, List.mem_cons, List.not_mem_nil, or_false, not_or] at h
  obtain ⟨h1, h2, h3, h4, h5, h6⟩ := h
  simp [validationRules, h1, h2, h3, h4, h5, h6]

/-- Claim C1: per-field validation returns the first failing message of the
fixed cascade the spec states (required, then configured minimum length,
then configured pattern, then the confirm-password mismatch special case),
and returns no error for every field name outside the rule set. -/
theorem validateField_follows_spec_cascade :
    ∀ (f : String) (v : JsValue) (fd : FormData),
      validateField f v fd = validateFieldSpec f v fd ∧
      (validationRules f = none → validateField f v fd = none) := by
  intro f v fd
  refine ⟨?_, fun h => by simp [validateField, h]⟩
  unfold validateField validateFieldSpec validationRules
  split_ifs <;>
    simp [fullNameRule, emailRule, phoneRule, passwordRule, confirmPasswordRule,
      agreeToTermsRule, minLengthFails, patternFails]

/-- Witness for claim C1 at a field name outside the rule set. -/
theorem validateField_follows_spec_cascade_witness :
    validateField "nickname" (JsValue.str "x") initialFormData = none :=
  (validateField_follows_spec_cascade "nickname" (JsValue.str "x") initialFormData).2 rfl

/-- Claim C2: the network call is issued exactly when full-form validation
returns an empty error map; the empty initial form yields exactly the six
required-field messages and is blocked, the all-valid scenario A form
proceeds to submission. -/
theorem submit_gate_iff_no_errors :
    (∀ fd : FormData,
        handleSubmitValidation fd = ValidationOutcome.proceed ↔ validateForm fd = []) ∧
    handleSubmitValidation initialFormData =
      ValidationOutcome.blocked
        [("fullName", "Full name is required"),
         ("email", "Email is required"),
         ("phone", "Phone number is required"),
         ("password", "Password is required"),
         ("confirmPassword", "Please confirm your password"),
         ("agreeToTerms", "You must agree to the Terms & Conditions")] ∧
    handleSubmitValidation scenarioAForm = ValidationOutcome.proceed := by
  refine ⟨fun fd => ?_, by decide, by decide⟩
  unfold handleSubmitValidation
  cases h : validateForm fd <;> simp [h]

/-- Claim C3: the field error map holds an entry for a field exactly when
that field currently fails validation against the form state of the pass;
validateForm recomputes the whole map from the form state alone. -/
theorem errorMap_entry_iff_field_fails :
    ∀ (fd : FormData) (f msg : String),
      (f, msg) ∈ validateForm fd ↔ validateField f (fd.get f) fd = some msg := by
  intro fd f msg
  constructor
  · intro h
    simp only [validateForm, List.mem_filterMap] at h
    obtain ⟨a, _, ha⟩ := h
    cases hv : validateField a (fd.get a) fd with
    | none => rw [hv] at ha; simp at ha
    | some e =>
      rw [hv] at ha
      simp only [Option.map_some', Option.some.injEq, Prod.mk.injEq] at ha
      obtain ⟨rfl, rfl⟩ := ha
      exact hv
  · intro h
    by_cases hf : f ∈ ruleKeys
    · simp only [validateForm, List.mem_filterMap]
      exact ⟨f, hf, by rw [h]; rfl⟩
    · exact absurd h (by simp [validateField, validationRules_none_of_not_mem f hf])

lemma validateField_phone_eq (fd : FormData) (s : String) :
    validateField "phone" (JsValue.str s) fd =
      if s = "" then some "Phone number is required"
      else if matchPhone s = true then none
      else some "Phone number must be exactly 10 digits" := by
  by_cases hs : s = ""
  · subst hs; rfl
  · by_cases hm : matchPhone s = true <;>
      simp [validateField, validationRules, phoneRule, minLengthFails, patternFails,
        jsTruthy, jsToString, hs, hm]

/-- Claim C8: the phone field accepts exactly ten-digit strings: "12345" and
"12345678901" draw the pattern message, "1234567890" passes, and in general
a phone value validates clean exactly when it is ten digit characters. -/
theorem phone_field_accepts_exactly_ten_digits :
    ∀ fd : FormData,
      validateField "phone" (JsValue.str "12345") fd =
        some "Phone number must be exactly 10 digits" ∧
      validateField "phone" (JsValue.str "1234567890") fd = none ∧
      validateField "phone" (JsValue.str "12345678901") fd =
        some "Phone number must be exactly 10 digits" ∧
      ∀ s : String,
        (validateField "phone" (JsValue.str s) fd = none ↔
          s.toList.length = 10 ∧ ∀ c ∈ s.toList, isJsDigit c = true) := by
  intro fd
  refine ⟨rfl, rfl, rfl, fun s => ?_⟩
  rw [validateField_phone_eq]
  by_cases hs : s = ""
  · subst hs; simp
  · by_cases hm : matchPhone s = true
    · simp only [hs, if_false, hm, if_true]
      simp only [true_iff]
      simpa [matchPhone, List.all_eq_true] using hm
    · simp only [hs, if_false, hm, if_false]
      constructor
      · intro h; exact absurd h (by simp)
      · intro h
        refine absurd ?_ hm
        simp only [matchPhone, Bool.and_eq_true, beq_iff_eq, List.all_eq_true]
        exact ⟨h.1, h.2⟩

/-- Claim C4: a 2xx response resolves to success with exactly one navigation
and an empty banner; a non-2xx response with a message body resolves to
failure carrying that exact message (or the server fallback when the body
has no message) with no navigation; every resolution path clears the
loading flag. -/
theorem submit_resolution_paths :
    (∀ (status : Nat) (body : JsonBody), statusOk status = true →
        handleSubmitResolve (submitRegistration (FetchOutcome.response status body)) =
          { navigations := 1, bannerError := "", loadingCleared := true }) ∧
    handleSubmitResolve (submitRegistration (FetchOutcome.response 409
        (JsonBody.obj (some "Email already registered")))) =
      { navigations := 0, bannerError := "Email already registered",
        loadingCleared := true } ∧
    (∀ status : Nat, statusOk status = false →
        handleSubmitResolve (submitRegistration
            (FetchOutcome.response status (JsonBody.obj none))) =
          { navigations := 0, bannerError := "Registration failed",
            loadingCleared := true }) ∧
    (∀ result : SubmitResult, (handleSubmitResolve result).loadingCleared = true) := by
  refine ⟨fun status body h => ?_, by decide, fun status h => ?_, fun result => ?_⟩
  · simp [submitRegistration, h, handleSubmitResolve]
  · simp [submitRegistration, h, handleSubmitResolve, jsOrElse]
  · cases result <;> rfl

/-- Witness for claim C4 at the concrete statuses 201 and 500. -/
theorem submit_resolution_paths_witness :
    handleSubmitResolve (submitRegistration (FetchOutcome.response 201 (JsonBody.obj none))) =
      { navigations := 1, bannerError := "", loadingCleared := true } ∧
    handleSubmitResolve (submitRegistration (FetchOutcome.response 500 (JsonBody.obj none))) =
      { navigations := 0, bannerError := "Registration failed", loadingCleared := true } :=
  ⟨submit_resolution_paths.1 201 (JsonBody.obj none) (by decide),
   submit_resolution_paths.2.2.1 500 (by decide)⟩

/-- Claim C5: for every form state the registration request is a POST to the
registration endpoint with JSON content type whose body holds exactly the
fullName, email, phone and password strings of the form state; the
confirmation and terms fields are never transmitted. -/
theorem registration_request_shape :
    ∀ (base : String) (data : FormData),
      (buildRegistrationRequest base data).method = "POST" ∧
      (buildRegistrationRequest base data).url = base ++ "/auth/user/register" ∧
      (buildRegistrationRequest base data).contentTypeHeader = "application/json" ∧
      (buildRegistrationRequest base data).bodyFields =
        [("fullName", data.fullName), ("email", data.email),
         ("phone", data.phone), ("password", data.password)] ∧
      "confirmPassword" ∉ ((buildRegistrationRequest base data).bodyFields).map Prod.fst ∧
      "agreeToTerms" ∉ ((buildRegistrationRequest base data).bodyFields).map Prod.fst := by
  intro base data
  refine ⟨rfl, rfl, rfl, rfl, ?_, ?_⟩ <;> simp [buildRegistrationRequest]

/-- Counterexample for claim C6: on the code, a network-level exception and a
server rejection whose body lacks a message yield different user-facing
messages. -/
theorem network_vs_server_fallback_messages_differ :
    (handleSubmitResolve (submitRegistration FetchOutcome.netError)).bannerError ≠
      (handleSubmitResolve (submitRegistration
        (FetchOutcome.response 409 (JsonBody.obj none)))).bannerError := by
  decide

/-- Claim C6 as amended: the user-facing message does depend on the failure
kind: a network-level exception surfaces the retry-later message, while a
server rejection whose body lacks a message surfaces the shorter server
fallback message. -/
theorem failure_message_depends_on_case :
    (handleSubmitResolve (submitRegistration FetchOutcome.netError)).bannerError =
      "Registration failed. Please try again later." ∧
    (∀ status : Nat, statusOk status = false →
        (handleSubmitResolve (submitRegistration
            (FetchOutcome.response status (JsonBody.obj none)))).bannerError =
          "Registration failed") := by
  refine ⟨rfl, fun status h => ?_⟩
  simp [submitRegistration, h, handleSubmitResolve, jsOrElse]

/-- Witness for the amended claim C6 at status 409. -/
theorem failure_message_depends_on_case_witness :
    (handleSubmitResolve (submitRegistration
        (FetchOutcome.response 409 (JsonBody.obj none)))).bannerError =
      "Registration failed" :=
  failure_message_depends_on_case.2 409 (by decide)

/-- Claim C7: with the API base URL unset, getApiBaseUrl raises the
descriptive error (it re-checks the variable itself, with no dependence on
validateConfig) and initializeConfig returns false; with the API base URL
present and only the relying-party id unset, no error is recorded, the
relying-party warning is, and initializeConfig returns true. -/
theorem config_required_error_optional_warning :
    (∀ e : Env, e.apiBaseUrl = none →
        getApiBaseUrl e =
          Except.error "REACT_APP_API_BASE_URL environment variable is required" ∧
        initializeConfig e = false) ∧
    (∀ e : Env, envTruthy e.apiBaseUrl = true → e.rpId = none →
        validateConfigErrors e = [] ∧
        "REACT_APP_RP_ID is not set - passkey functionality may not work" ∈
          validateConfigWarnings e ∧
        initializeConfig e = true) := by
  refine ⟨fun e h => ?_, fun e h1 h2 => ?_⟩
  · constructor
    · simp [getApiBaseUrl, envTruthy, h]
    · simp [initializeConfig, validateConfig, validateConfigErrors, envTruthy, h]
  · refine ⟨?_, ?_, ?_⟩
    · simp [validateConfigErrors, h1]
    · simp [validateConfigWarnings, envTruthy, h2]
    · simp [initializeConfig, validateConfig, validateConfigErrors, getApiBaseUrl, h1]

/-- Witness for claim C7 at two concrete environments. -/
theorem config_required_error_optional_warning_witness :
    (getApiBaseUrl envMissingApi =
        Except.error "REACT_APP_API_BASE_URL environment variable is required" ∧
      initializeConfig envMissingApi = false) ∧
    (validateConfigErrors envMissingRpId = [] ∧
      "REACT_APP_RP_ID is not set - passkey functionality may not work" ∈
        validateConfigWarnings envMissingRpId ∧
      initializeConfig envMissingRpId = true) :=
  ⟨config_required_error_optional_warning.1 envMissingApi rfl,
   config_required_error_optional_warning.2 envMissingRpId (by decide) rfl⟩

/-- Claim C9: a non-2xx response whose body does not parse as JSON makes the
body-parsing step throw, so the submission resolves through the exception
path with the generic retry-later message, not a server-derived one. -/
theorem unparseable_body_resolves_generic :
    ∀ status : Nat, statusOk status = false →
      submitRegistration (FetchOutcome.response status JsonBody.invalid) =
        SubmitResult.threw ∧
      handleSubmitResolve (submitRegistration
          (FetchOutcome.response status JsonBody.invalid)) =
        { navigations := 0, bannerError := "Registration failed. Please try again later.",
          loadingCleared := true } := by
  intro status h
  constructor <;> simp [submitRegistration, h, handleSubmitResolve]

/-- Witness for claim C9 at status 500. -/
theorem unparseable_body_resolves_generic_witness :
    submitRegistration (FetchOutcome.response 500 JsonBody.invalid) = SubmitResult.threw ∧
    handleSubmitResolve (submitRegistration (FetchOutcome.response 500 JsonBody.invalid)) =
      { navigations := 0, bannerError := "Registration failed. Please try again later.",
        loadingCleared := true } :=
  unparseable_body_resolves_generic 500 (by decide)

/-- Claim C10: an environment value set to the empty string behaves exactly
like an unset one: validateConfig and getApiBaseUrl reject an empty API
base URL with the same errors as an absent one, an empty relying-party id
reads back as the empty string, and an empty relying-party name falls back
to the default display name. -/
theorem empty_env_value_equals_unset :
    ∀ (rid rnm api : Option String),
      validateConfig { apiBaseUrl := some "", rpId := rid, rpName := rnm } =
        validateConfig { apiBaseUrl := none, rpId := rid, rpName := rnm } ∧
      getApiBaseUrl { apiBaseUrl := some "", rpId := rid, rpName := rnm } =
        getApiBaseUrl { apiBaseUrl := none, rpId := rid, rpName := rnm } ∧
      getApiBaseUrl { apiBaseUrl := some "", rpId := rid, rpName := rnm } =
        Except.error "REACT_APP_API_BASE_URL environment variable is required" ∧
      validateConfig { apiBaseUrl := some "", rpId := rid, rpName := rnm } =
        Except.error
          "Missing required environment variables: REACT_APP_API_BASE_URL is required" ∧
      getRpId { apiBaseUrl := api, rpId := some "", rpName := rnm } = "" ∧
      getRpName { apiBaseUrl := api, rpId := rid, rpName := some "" } =
        "Digital Identity Hub" := by
  intro rid rnm api
  exact ⟨rfl, rfl, rfl, rfl, rfl, rfl⟩
